import Mathlib

/-!
Verification of the Jira integration module (src/sentry/integrations/jira/integration.py).

The development shallowly embeds the data model and the operations of the module:
Python dict values are modelled by the inductive `JVal`, dicts by association
lists in insertion order (Python dict assignment keeps the position of an
existing key and appends a fresh one), exceptions by `Except`/`PyErr`, and the
remote Jira client together with the database by explicit inputs and by traces
of emitted calls (`Effect`).
-/

/-- A Python value as it appears in posted form data, configuration blobs and
Jira payloads: strings, integers, floats (modelled as exact rationals),
booleans, lists, string-keyed dicts and None. -/
inductive JVal where
  | s (v : String)
  | i (v : Int)
  | f (v : Rat)
  | b (v : Bool)
  | arr (l : List JVal)
  | obj (l : List (String × JVal))
  | null

/-- Python truthiness of a `JVal` (empty string, zero, False, empty list,
empty dict and None are falsy). -/
def jvTruthy : JVal → Bool
  | .s v => v != ""
  | .i n => n != 0
  | .f q => q != 0
  | .b v => v
  | .arr l => !l.isEmpty
  | .obj l => !l.isEmpty
  | .null => false

/-- Truthiness of `d.get(k)`: false when the key is absent. -/
def optJvTruthy : Option JVal → Bool
  | none => false
  | some v => jvTruthy v

/-- Truthiness of an optional string (Python `None` or `""` are falsy). -/
def optStrTruthy : Option String → Bool
  | none => false
  | some v => v != ""

/-- `d.get(k)` on a dict modelled as an association list. -/
def pyGet : List (String × JVal) → String → Option JVal
  | [], _ => none
  | p :: rest, k => if p.1 == k then some p.2 else pyGet rest k

/-- `d[k] = v` on a dict modelled as an association list: an existing key
keeps its position, a fresh key is appended. -/
def pyDictSet : List (String × JVal) → String → JVal → List (String × JVal)
  | [], k, v => [(k, v)]
  | p :: rest, k, v => if p.1 == k then (k, v) :: rest else p :: pyDictSet rest k v

/-- `d.update(upd)`: assign every key of `upd` into `d` in order. -/
def pyDictUpdate (d : List (String × JVal)) (upd : List (String × JVal)) : List (String × JVal) :=
  upd.foldl (fun acc p => pyDictSet acc p.1 p.2) d

/-! ### Status Reconciliation Engine (inbound predicates) -/

/-- One entry of `client.get_valid_statuses()`: a status id together with the
key of its status category (`s.statusCategory.key`). -/
structure JiraStatus where
  id : String
  statusCategoryKey : String
deriving DecidableEq

/-- `_get_done_statuses`: the ids of the statuses whose category key is
`done`, freshly derived from the fetched status list. -/
def get_done_statuses (statuses : List JiraStatus) : List String :=
  (statuses.filter (fun s => s.statusCategoryKey == "done")).map (fun s => s.id)

/-- The webhook changelog of a status transition
(`data.changelog.from` / `data.changelog.to`). -/
structure ChangelogData where
  c_from : String
  c_to : String
deriving DecidableEq

/-- `should_unresolve`: the transition left the done set. -/
def should_unresolve (statuses : List JiraStatus) (data : ChangelogData) : Bool :=
  let done_statuses := get_done_statuses statuses
  done_statuses.contains data.c_from && !(done_statuses.contains data.c_to)

/-- `should_resolve`: the transition entered the done set. -/
def should_resolve (statuses : List JiraStatus) (data : ChangelogData) : Bool :=
  let done_statuses := get_done_statuses statuses
  done_statuses.contains data.c_to && !(done_statuses.contains data.c_from)

/-! ### Configuration Surface -/

/-- An `IntegrationExternalProject` row: the per-(organization-integration,
Jira-project) mapping of resolution states to Jira status ids. -/
structure IntegrationExternalProject where
  organization_integration_id : Nat
  external_id : String
  resolved_status : String
  unresolved_status : String
deriving DecidableEq

/-- An `OrganizationIntegration` row (only the columns the module reads). -/
structure OrganizationIntegration where
  id : Nat
  organization_id : Nat
  integration_id : Nat
deriving DecidableEq

/-- One supplied per-project status mapping
(`{on_resolve: ..., on_unresolve: ...}`); an empty string models a falsy
(missing) selection. -/
structure StatusMapping where
  on_resolve : String
  on_unresolve : String
deriving DecidableEq

/-- The argument of `update_organization_config`: the optional
`sync_status_forward` dict of per-project mappings (present iff the key was
posted) plus the remaining toggle keys. -/
structure UpdateConfigData where
  sync_status_forward : Option (List (String × StatusMapping))
  rest : List (String × JVal)

/-- The persisted state an organization integration sees: its own id, its
config blob, and the `IntegrationExternalProject` table. -/
structure OrgIntegrationState where
  orgIntegrationId : Nat
  config : List (String × JVal)
  externalProjects : List IntegrationExternalProject

/-- `update_organization_config`: validate that every supplied mapping has
truthy resolve and unresolve statuses (raising an `IntegrationError` before
touching the database otherwise), replace all rows of this organization
integration with the supplied set, record `bool(project_mappings)` in the
blob, and merge the remaining keys. The first component is the raised error
message, if any; the second the resulting state (unchanged on the error
path, which in the source raises before any delete or insert). -/
def update_organization_config (st : OrgIntegrationState) (data : UpdateConfigData) :
    Option String × OrgIntegrationState :=
  match data.sync_status_forward with
  | none => (none, { st with config := pyDictUpdate st.config data.rest })
  | some project_mappings =>
    if project_mappings.any (fun pm => pm.2.on_unresolve == "" || pm.2.on_resolve == "") then
      (some "Resolve and unresolve status are required.", st)
    else
      let newData := data.rest ++ [("sync_status_forward", JVal.b (!project_mappings.isEmpty))]
      let kept := st.externalProjects.filter
        (fun ep => ep.organization_integration_id != st.orgIntegrationId)
      let created := project_mappings.map (fun pm =>
        { organization_integration_id := st.orgIntegrationId
          external_id := pm.1
          resolved_status := pm.2.on_resolve
          unresolved_status := pm.2.on_unresolve : IntegrationExternalProject })
      (none, { st with
                 config := pyDictUpdate st.config newData
                 externalProjects := kept ++ created })

/-- The per-project dict `get_config_data` derives from one persisted row:
`{on_unresolve: ..., on_resolve: ...}`. -/
def rowStatusObj (pm : IntegrationExternalProject) : JVal :=
  JVal.obj [("on_unresolve", JVal.s pm.unresolved_status),
            ("on_resolve", JVal.s pm.resolved_status)]

/-- `get_config_data`: rebuild the `sync_status_forward` projection from the
persisted `IntegrationExternalProject` rows of this organization integration
and overwrite that key of the config blob with it. -/
def get_config_data (st : OrgIntegrationState) : List (String × JVal) :=
  let project_mappings := st.externalProjects.filter
    (fun ep => ep.organization_integration_id == st.orgIntegrationId)
  let sync_status_forward := project_mappings.foldl
    (fun acc pm => pyDictSet acc pm.external_id (rowStatusObj pm)) []
  pyDictSet st.config "sync_status_forward" (JVal.obj sync_status_forward)

/-! ### Python exceptions and emitted client calls -/

/-- The exceptions the embedded operations can raise: `IntegrationError`
(user-facing configuration error), `KeyError`, `TypeError`, `IndexError`
and Django `MultipleObjectsReturned`. -/
inductive PyErr where
  | integrationError (msg : String)
  | keyError (key : String)
  | typeError
  | indexError
  | multipleObjectsReturned
deriving DecidableEq

/-- The observable calls an outbound sync operation emits, in order: Jira
client requests and log records. -/
inductive Effect where
  | getIssue (key : String)
  | getTransitions (key : String)
  | transitionIssue (key : String) (transitionId : String)
  | searchUsers (key : String) (email : String)
  | assignIssue (key : String) (name : Option String)
  | logInfo (msg : String)
  | logWarning (msg : String)
deriving DecidableEq

/-! ### Status Reconciliation Engine (outbound) -/

/-- One entry of `client.get_transitions(...)`: the transition id and the id
of its destination status (`t.to.id`). -/
structure Transition where
  id : String
  toId : String
deriving DecidableEq

/-- Everything `sync_status_outbound` reads: the external issue columns, the
two database tables, and the responses of the Jira client (the fetched
issue's project id and current status id, and the transition list). -/
structure SyncStatusEnv where
  externalIssueKey : String
  organizationId : Nat
  integrationId : Nat
  orgIntegrations : List OrganizationIntegration
  externalProjects : List IntegrationExternalProject
  issueProjectId : String
  issueStatusId : String
  transitions : List Transition

/-- The rows matching the `IntegrationExternalProject.objects.get` filter of
`sync_status_outbound`: external id equal to the issue's project and
organization-integration id among the organization integrations of this
(organization, integration) pair. -/
def matchingExternalProjects (env : SyncStatusEnv) : List IntegrationExternalProject :=
  env.externalProjects.filter (fun ep =>
    ep.external_id == env.issueProjectId &&
    (env.orgIntegrations.filter (fun oi =>
        oi.organization_id == env.organizationId &&
        oi.integration_id == env.integrationId)).any
      (fun oi => oi.id == ep.organization_integration_id))

/-- `sync_status_outbound`: fetch the issue, look up the configured status
mapping for its project (a missing row, Django `DoesNotExist`, is caught and
the operation returns), pick the target status for the direction, skip when
the issue is already there, fetch the transitions, log a warning when none
reaches the target, and otherwise execute the matched transition. The result
is the ordered trace of emitted calls; `MultipleObjectsReturned` from the
`.get` escapes uncaught. -/
def sync_status_outbound (env : SyncStatusEnv) (is_resolved : Bool) :
    Except PyErr (List Effect) :=
  let calls := [Effect.getIssue env.externalIssueKey]
  match matchingExternalProjects env with
  | [] => .ok calls
  | [external_project] =>
    let jira_status := if is_resolved
      then external_project.resolved_status else external_project.unresolved_status
    if env.issueStatusId == jira_status then .ok calls
    else
      let calls := calls ++ [Effect.getTransitions env.externalIssueKey]
      match env.transitions.filter (fun t => t.toId == jira_status) with
      | [] => .ok (calls ++ [Effect.logWarning "jira.status-sync-fail"])
      | transition :: _ =>
        .ok (calls ++ [Effect.transitionIssue env.externalIssueKey transition.id])
  | _ => .error .multipleObjectsReturned

/-! ### Assignee Propagation -/

/-- One result of `client.search_users_for_issue`. -/
structure JiraUser where
  name : String
  emailAddress : String
deriving DecidableEq

/-- Everything `sync_assignee_outbound` reads: the issue key, the verified
email addresses of the user in iteration order, the outcome of each user
search (`none` models an `ApiUnauthorized`/`ApiError`), and whether the
final assign call fails. -/
structure AssigneeEnv where
  issueKey : String
  emails : List String
  search : String → Option (List JiraUser)
  assignFails : Bool

/-- The search loop of `sync_assignee_outbound`: for each verified email run
the issue-scoped user search (continuing on an API error), take the first
result whose email matches exactly, and stop at the first match. Returns the
trace of search calls and the found user, if any. -/
def searchJiraUser (key : String) (search : String → Option (List JiraUser)) :
    List String → List Effect × Option JiraUser
  | [] => ([], none)
  | email :: rest =>
    let call := Effect.searchUsers key email
    match search email with
    | none =>
      let (trace, found) := searchJiraUser key search rest
      (call :: trace, found)
    | some res =>
      match (res.filter (fun r => r.emailAddress == email)).head? with
      | some u => ([call], some u)
      | none =>
        let (trace, found) := searchJiraUser key search rest
        (call :: trace, found)

/-- `sync_assignee_outbound`: on `assign = true` run the search loop; when it
finds nobody, log `jira.assignee-not-found` and return without touching the
Jira assignee. Otherwise call `assign_issue` with the found name (or `none`
to clear on `assign = false`), logging `jira.failed-to-assign` when that call
fails. The result is the ordered trace of emitted calls. -/
def sync_assignee_outbound (env : AssigneeEnv) (assign : Bool) : List Effect :=
  let (trace, jira_user) :=
    if assign then searchJiraUser env.issueKey env.search env.emails else ([], none)
  if assign && jira_user.isNone then
    trace ++ [Effect.logInfo "jira.assignee-not-found"]
  else
    trace ++ [Effect.assignIssue env.issueKey (jira_user.map JiraUser.name)] ++
      (if env.assignFails then [Effect.logInfo "jira.failed-to-assign"] else [])

/-- The decision condition of claim C5: no search result carries an email
equal to the searched verified address (searches that fail have no results). -/
def noMatchFound (env : AssigneeEnv) : Bool :=
  env.emails.all (fun email =>
    match env.search email with
    | none => true
    | some res => res.all (fun r => r.emailAddress != email))

/-! ### Field Schema Translator -/

/-- The `JIRA_CUSTOM_FIELD_TYPES` table of built-in Jira custom field type
identifiers; lookups of unknown keys give `none` (`dict.get`). -/
def JIRA_CUSTOM_FIELD_TYPES (key : String) : Option String :=
  if key == "select" then
    some "com.atlassian.jira.plugin.system.customfieldtypes:select"
  else if key == "textarea" then
    some "com.atlassian.jira.plugin.system.customfieldtypes:textarea"
  else if key == "multiuserpicker" then
    some "com.atlassian.jira.plugin.system.customfieldtypes:multiuserpicker"
  else if key == "tempo_account" then
    some "com.tempoplugin.tempo-accounts:accounts.customfield"
  else none

/-- A Jira field schema: the data type, the optional custom field type
identifier, and the item type of array fields. -/
structure Schema where
  type : String
  custom : Option String := none
  items : Option String := none
deriving DecidableEq

/-- One entry of a field's `allowedValues`: an id and either a `name` or a
`value` label. -/
structure AllowedValue where
  id : String
  name : Option String := none
  value : String := ""
deriving DecidableEq

/-- `make_choices`: label and value pairs from allowed values, preferring the
`name` key and falling back to `value`; a missing (falsy) list gives no
choices. -/
def make_choices (x : Option (List AllowedValue)) : List (String × String) :=
  match x with
  | none => []
  | some l => l.map (fun y => (y.id, match y.name with | some n => n | none => y.value))

/-- One Jira field-metadata record as consumed by `build_dynamic_field`. -/
structure FieldMeta where
  name : String
  required : Bool
  schema : Schema
  autoCompleteUrl : Option String := none
  allowedValues : Option (List AllowedValue) := none

/-- The hex digit of `n < 16`, uppercase. -/
def hexDigit (n : Nat) : Char :=
  if n < 10 then Char.ofNat (48 + n) else Char.ofNat (55 + n)

/-- `urllib.quote_plus` on ASCII input: letters, digits, `_`, `.` and `-`
pass through, a space becomes `+`, every other character is percent-encoded. -/
def pyQuotePlus (s : String) : String :=
  String.join (s.toList.map (fun c =>
    if c.isAlphanum || c == '_' || c == '.' || c == '-' then String.singleton c
    else if c == ' ' then "+"
    else "%" ++ String.singleton (hexDigit (c.toNat / 16 % 16)) ++
      String.singleton (hexDigit (c.toNat % 16))))

/-- The `fkwargs` dict `build_dynamic_field` assembles: the defaults are a
plain text field with the label and required flag of the metadata; branch
keys that were never assigned stay `none`. -/
structure FieldDescriptor where
  label : String
  required : Bool
  fieldtype : String
  choices : Option (List (String × String)) := none
  url : Option String := none
  multiple : Option Bool := none
  defaultVal : Option JVal := none

/-- `build_dynamic_field`: the priority-ordered rule chain translating one
field-metadata record into a form-field descriptor, `ok none` being the omit
signal for unsupported types. `sentry_url` stands for the reversed
`sentry-extensions-jira-search` route. The array branch indexes
`schema.items`, so a missing item type there raises a `KeyError`. -/
def build_dynamic_field (sentry_url : String) (field_meta : FieldMeta) :
    Except PyErr (Option FieldDescriptor) :=
  let schema := field_meta.schema
  let fkwargs : FieldDescriptor :=
    { label := field_meta.name, required := field_meta.required, fieldtype := "text" }
  let step : Except PyErr (Option FieldDescriptor) :=
    if schema.type == "securitylevel" || schema.type == "priority" ||
        schema.custom == JIRA_CUSTOM_FIELD_TYPES "select" then
      .ok (some { fkwargs with
                    fieldtype := "select"
                    choices := some (make_choices field_meta.allowedValues) })
    else if optStrTruthy field_meta.autoCompleteUrl &&
        (schema.items == some "user" || schema.type == "user") then
      .ok (some { fkwargs with
                    fieldtype := "select"
                    url := some (sentry_url ++ "?jira_url=" ++
                      pyQuotePlus (match field_meta.autoCompleteUrl with
                                   | some u => u
                                   | none => "")) })
    else if schema.type == "timetracking" then
      .ok none
    else if schema.items == some "worklog" || schema.items == some "attachment" then
      .ok none
    else if schema.type == "array" then
      match schema.items with
      | none => .error (.keyError "items")
      | some it =>
        if it != "string" then
          .ok (some { fkwargs with
                        fieldtype := "select"
                        multiple := some true
                        choices := some (make_choices field_meta.allowedValues)
                        defaultVal := some (JVal.arr []) })
        else .ok (some fkwargs)
    else .ok (some fkwargs)
  match step with
  | .ok (some d) =>
    if optStrTruthy schema.custom && schema.custom == JIRA_CUSTOM_FIELD_TYPES "textarea" then
      .ok (some { d with fieldtype := "textarea" })
    else .ok (some d)
  | other => other

/-! ### Create-Issue Orchestrator -/

/-- A posted-data or payload dict. -/
abbrev PyDict := List (String × JVal)

/-- The value of a digit string (none when empty or not all digits). -/
def digitsVal? (l : List Char) : Option Nat :=
  if l.isEmpty then none
  else if l.all Char.isDigit then
    some (l.foldl (fun a c => a * 10 + (c.toNat - 48)) 0)
  else none

/-- Split an optional leading sign: whether the value is negated, and the
remaining characters. -/
def signSplit : List Char → Bool × List Char
  | '-' :: rest => (true, rest)
  | '+' :: rest => (false, rest)
  | l => (false, l)

/-- The whitespace characters Python numeric parsing strips. -/
def pyWhitespace (c : Char) : Bool :=
  c == ' ' || c == '\t' || c == '\n' || c == '\r'

/-- Strip surrounding whitespace from a character list. -/
def trimChars (l : List Char) : List Char :=
  ((l.dropWhile pyWhitespace).reverse.dropWhile pyWhitespace).reverse

/-- Split a character list on one separator character. -/
def splitOnChar (sep : Char) (l : List Char) : List (List Char) :=
  l.foldr (fun x acc =>
    match acc with
    | [] => [[x]]
    | cur :: rest => if x == sep then [] :: cur :: rest else (x :: cur) :: rest) [[]]

/-- Modelled Python `int()` on strings: surrounding whitespace and an
optional sign around a non-empty digit run; anything else is a `ValueError`
(`none`). -/
def pyInt? (s : String) : Option Int :=
  let (neg, digits) := signSplit (trimChars s.toList)
  match digitsVal? digits with
  | none => none
  | some n => some (if neg then -(n : Int) else (n : Int))

/-- Modelled Python `float()` on plain decimal literals, as an exact
rational: optional sign, then digits with at most one dot and at least one
digit; exponent and special forms are out of scope of the claims and give
`none`. -/
def pyFloat? (s : String) : Option Rat :=
  let (neg, body) := signSplit (trimChars s.toList)
  let val? : Option Rat :=
    match splitOnChar '.' body with
    | [ip] => (digitsVal? ip).map (fun n => (n : Rat))
    | [ip, fp] =>
      if ip.isEmpty && fp.isEmpty then none
      else
        match (if ip.isEmpty then some 0 else digitsVal? ip),
              (if fp.isEmpty then some 0 else digitsVal? fp) with
        | some i, some fr => some ((i : Rat) + (fr : Rat) / ((10 : Rat) ^ fp.length))
        | _, _ => none
    | _ => none
  val?.map (fun q => if neg then -q else q)

/-- The per-field value cleaning of `create_issue` (its `if schema:` block):
the first matching branch of the `elif` chain rewrites the truthy posted
value `v` into the shape Jira expects. The array branch iterates `v` (a
string iterates its characters, a dict its keys, anything non-iterable is a
`TypeError`); the numeric branch applies `float`/`int` to `v`, keeping the
string when parsing raises the caught `ValueError` and raising `TypeError`
on non-string values. -/
def cleanFieldValue (schema : Schema) (v : JVal) : Except PyErr JVal :=
  if schema.type == "string" && !optStrTruthy schema.custom then .ok v
  else if schema.type == "user" || schema.items == some "user" then
    .ok (.obj [("name", v)])
  else if schema.custom == JIRA_CUSTOM_FIELD_TYPES "multiuserpicker" then
    .ok (.arr [.obj [("name", v)]])
  else if schema.type == "array" && schema.items != some "string" then
    match v with
    | .arr l => .ok (.arr (l.map (fun vx => .obj [("id", vx)])))
    | .s str => .ok (.arr (str.toList.map (fun c => .obj [("id", .s (String.singleton c))])))
    | .obj l => .ok (.arr (l.map (fun p => .obj [("id", .s p.1)])))
    | _ => .error .typeError
  else if schema.type == "array" && schema.items == some "string" then
    .ok (.arr [v])
  else if schema.custom == JIRA_CUSTOM_FIELD_TYPES "textarea" then .ok v
  else if schema.type == "number" ||
      schema.custom == JIRA_CUSTOM_FIELD_TYPES "tempo_account" then
    match v with
    | .s str =>
      if str.toList.contains '.' then
        match pyFloat? str with
        | some q => .ok (.f q)
        | none => .ok (.s str)
      else
        match pyInt? str with
        | some n => .ok (.i n)
        | none => .ok (.s str)
    | _ => .error .typeError
  else if schema.type != "string" ||
      (optStrTruthy schema.items && schema.items != some "string") ||
      schema.custom == JIRA_CUSTOM_FIELD_TYPES "select" then
    .ok (.obj [("id", v)])
  else .ok v

/-- One issue type of the create metadata: its id and its field dict (field
key to the optional `schema` entry of the field record, the only entry
`create_issue` reads). -/
structure IssueTypeMeta where
  id : String
  fields : List (String × Option Schema)
deriving DecidableEq

/-- The create metadata of one project. -/
structure CreateMeta where
  issuetypes : List IssueTypeMeta
deriving DecidableEq

/-- `get_issue_type_meta`: when a truthy issue type is requested, the first
issue type of the metadata whose id equals it; otherwise, or when none
matches, the first issue type. `none` corresponds to the `IndexError` the
source raises on an empty issue-type list. -/
def get_issue_type_meta (issue_type : Option JVal) (meta : CreateMeta) : Option IssueTypeMeta :=
  let issue_types := meta.issuetypes
  let issue_type_meta : Option IssueTypeMeta :=
    match issue_type with
    | some v =>
      if jvTruthy v then
        (issue_types.filter (fun t =>
          match v with
          | .s sv => t.id == sv
          | _ => false)).head?
      else none
    | none => none
  match issue_type_meta with
  | some m => some m
  | none => issue_types.head?

/-- The body of the field loop of `create_issue` for one metadata field:
`description` and `summary` are copied from `data.description` and
`data.title` unconditionally (a missing key is an uncaught `KeyError`);
every other field is taken from the posted data when present and truthy,
cleaned through its schema when one exists, and skipped otherwise. -/
def processField (data cleaned_data : PyDict) (field : String) (f : Option Schema) :
    Except PyErr PyDict :=
  if field == "description" then
    match pyGet data "description" with
    | none => .error (.keyError "description")
    | some v => .ok (pyDictSet cleaned_data "description" v)
  else if field == "summary" then
    match pyGet data "title" with
    | none => .error (.keyError "title")
    | some v => .ok (pyDictSet cleaned_data "summary" v)
  else
    match pyGet data field with
    | none => .ok cleaned_data
    | some v =>
      if !jvTruthy v then .ok cleaned_data
      else
        match f with
        | none => .ok (pyDictSet cleaned_data field v)
        | some schema =>
          match cleanFieldValue schema v with
          | .error e => .error e
          | .ok v2 => .ok (pyDictSet cleaned_data field v2)

/-- The field loop of `create_issue` over the metadata field dict, building
`cleaned_data`. -/
def buildCleanedData (data : PyDict) : List (String × Option Schema) → PyDict →
    Except PyErr PyDict
  | [], cleaned_data => .ok cleaned_data
  | (field, f) :: rest, cleaned_data =>
    match processField data cleaned_data field f with
    | .error e => .error e
    | .ok cd => buildCleanedData data rest cd

/-- `isinstance(v, dict) and id in v`. -/
def isIdObj : JVal → Bool
  | .obj l => l.any (fun p => p.1 == "id")
  | _ => false

/-- `create_issue` up to the submitted payload: require truthy `issuetype`
and `project`, require create metadata for the project, resolve the issue
type, clean every metadata field, and wrap a bare `issuetype` as
`{id: value}`. The remote submission and the re-fetch of the created issue
are the transport collaborator and lie beyond the built payload. -/
def create_issue (data : PyDict) (meta : Option CreateMeta) : Except PyErr PyDict :=
  if !optJvTruthy (pyGet data "issuetype") then
    .error (.integrationError "Issue Type is required.")
  else if !optJvTruthy (pyGet data "project") then
    .error (.integrationError "Jira project is required.")
  else
    match meta with
    | none => .error (.integrationError "Something went wrong. Check your plugin configuration.")
    | some m =>
      match get_issue_type_meta (pyGet data "issuetype") m with
      | none => .error .indexError
      | some issue_type_meta =>
        match buildCleanedData data issue_type_meta.fields [] with
        | .error e => .error e
        | .ok cleaned_data =>
          match pyGet cleaned_data "issuetype" with
          | none => .error (.keyError "issuetype")
          | some v =>
            if isIdObj v then .ok cleaned_data
            else .ok (pyDictSet cleaned_data "issuetype" (JVal.obj [("id", v)]))

/-- Whether an effect touches Jira transitions (fetching the transition list
or executing a transition). -/
def touchesTransitions : Effect → Bool
  | .getTransitions _ => true
  | .transitionIssue _ _ => true
  | _ => false

/-! ## Dictionary lemmas -/

theorem pyGet_pyDictSet_self (d : List (String × JVal)) (k : String) (v : JVal) :
    pyGet (pyDictSet d k v) k = some v := by
  induction d with
  | nil => simp [pyDictSet, pyGet]
  | cons p rest ih =>
    by_cases h : p.1 = k
    · simp [pyDictSet, pyGet, h]
    · simp [pyDictSet, pyGet, h, ih]

theorem pyGet_pyDictSet_ne (d : List (String × JVal)) (k k' : String) (v : JVal)
    (h : k' ≠ k) : pyGet (pyDictSet d k v) k' = pyGet d k' := by
  induction d with
  | nil => simp [pyDictSet, pyGet, Ne.symm h]
  | cons p rest ih =>
    by_cases hp : p.1 = k
    · simp [pyDictSet, pyGet, hp, Ne.symm h, h]
    · by_cases hp' : p.1 = k'
      · simp [pyDictSet, pyGet, hp, hp', h]
      · simp [pyDictSet, pyGet, hp, hp', ih]

theorem pyDictSet_fresh (d : List (String × JVal)) (k : String) (v : JVal)
    (h : ∀ q ∈ d, q.1 ≠ k) : pyDictSet d k v = d ++ [(k, v)] := by
  induction d with
  | nil => simp [pyDictSet]
  | cons p rest ih =>
    have hp : p.1 ≠ k := h p (by simp)
    simp [pyDictSet, hp, ih (fun q hq => h q (by simp [hq]))]

/-! ## Claim C1: the inbound resolve/unresolve predicates -/

/-- Claim C1: for every fetched status list (hence every done set D derived
from it) and every changelog, `should_resolve` is true exactly when `to` is
in D and `from` is not, `should_unresolve` is true exactly when `from` is in
D and `to` is not; hence the two predicates are never both true, and when
`from` and `to` are both in D or both outside D, both predicates are false. -/
theorem should_resolve_unresolve_spec (statuses : List JiraStatus) (data : ChangelogData) :
    (should_resolve statuses data = true ↔
      (data.c_to ∈ get_done_statuses statuses ∧ data.c_from ∉ get_done_statuses statuses)) ∧
    (should_unresolve statuses data = true ↔
      (data.c_from ∈ get_done_statuses statuses ∧ data.c_to ∉ get_done_statuses statuses)) ∧
    (¬(should_resolve statuses data = true ∧ should_unresolve statuses data = true)) ∧
    (((data.c_from ∈ get_done_statuses statuses ∧ data.c_to ∈ get_done_statuses statuses) ∨
      (data.c_from ∉ get_done_statuses statuses ∧ data.c_to ∉ get_done_statuses statuses)) →
      should_resolve statuses data = false ∧ should_unresolve statuses data = false) := by
  by_cases hto : data.c_to ∈ get_done_statuses statuses <;>
  by_cases hfrom : data.c_from ∈ get_done_statuses statuses <;>
  simp [should_resolve, should_unresolve, List.contains, List.elem_iff, hto, hfrom]

/-- Witness for C1 at the done set derived from one done status `10001`:
entering it resolves, leaving it unresolves, staying put does neither. -/
theorem should_resolve_unresolve_spec_witness :
    should_resolve [⟨"10001", "done"⟩] ⟨"10000", "10001"⟩ = true ∧
    should_unresolve [⟨"10001", "done"⟩] ⟨"10001", "10000"⟩ = true ∧
    (should_resolve [⟨"10001", "done"⟩] ⟨"10001", "10001"⟩ = false ∧
     should_unresolve [⟨"10001", "done"⟩] ⟨"10001", "10001"⟩ = false) :=
  ⟨(should_resolve_unresolve_spec [⟨"10001", "done"⟩] ⟨"10000", "10001"⟩).1.mpr
      (by decide),
   (should_resolve_unresolve_spec [⟨"10001", "done"⟩] ⟨"10001", "10000"⟩).2.1.mpr
      (by decide),
   (should_resolve_unresolve_spec [⟨"10001", "done"⟩] ⟨"10001", "10001"⟩).2.2.2
      (by decide)⟩

/-! ## Claim C3: update_organization_config rejects incomplete mappings -/

/-- Claim C3: when any supplied per-project mapping has a falsy `on_resolve`
or `on_unresolve`, `update_organization_config` raises the validation error,
and the state (rows and config blob alike) is unchanged: the source raises
before any delete or insert. -/
theorem update_config_rejects_empty_status (st : OrgIntegrationState)
    (M : List (String × StatusMapping)) (rest : List (String × JVal))
    (hbad : ∃ pm ∈ M, pm.2.on_resolve = "" ∨ pm.2.on_unresolve = "") :
    update_organization_config st ⟨some M, rest⟩ =
      (some "Resolve and unresolve status are required.", st) := by
  obtain ⟨pm, hmem, hor⟩ := hbad
  have hany : (M.any fun pm => pm.2.on_unresolve == "" || pm.2.on_resolve == "") = true := by
    rw [List.any_eq_true]
    exact ⟨pm, hmem, by rcases hor with h | h <;> simp [h]⟩
  simp [update_organization_config, hany]

/-- Witness for C3: a mapping with an empty `on_resolve` is rejected with
the validation error and leaves the state untouched. -/
theorem update_config_rejects_empty_status_witness :
    update_organization_config ⟨7, [("sync_comments", JVal.b true)], [⟨3, "old", "a", "b"⟩]⟩
        ⟨some [("10100", ⟨"", "10001"⟩)], []⟩ =
      (some "Resolve and unresolve status are required.",
        ⟨7, [("sync_comments", JVal.b true)], [⟨3, "old", "a", "b"⟩]⟩) :=
  update_config_rejects_empty_status _ _ _
    ⟨("10100", ⟨"", "10001"⟩), by simp, Or.inl rfl⟩

/-- Folding the row dict of `get_config_data` over rows with pairwise
distinct external ids, from a dict whose keys avoid them, appends the rows
in order. -/
theorem foldl_rowStatusObj_fresh (rows : List IntegrationExternalProject) :
    ∀ acc : List (String × JVal),
    (rows.map IntegrationExternalProject.external_id).Nodup →
    (∀ q ∈ acc, ∀ r ∈ rows, q.1 ≠ r.external_id) →
    rows.foldl (fun a pm => pyDictSet a pm.external_id (rowStatusObj pm)) acc
      = acc ++ rows.map (fun pm => (pm.external_id, rowStatusObj pm)) := by
  induction rows with
  | nil => intro acc _ _; simp
  | cons r rest ih =>
    intro acc hn hdisj
    have hn' : (r.external_id :: rest.map IntegrationExternalProject.external_id).Nodup := by
      simpa using hn
    have hstep : pyDictSet acc r.external_id (rowStatusObj r)
        = acc ++ [(r.external_id, rowStatusObj r)] :=
      pyDictSet_fresh _ _ _ (fun q hq => hdisj q hq r (by simp))
    rw [List.foldl_cons, hstep, ih _ (List.nodup_cons.mp hn').2 ?_]
    · simp
    · intro q hq s hs
      rcases List.mem_append.mp hq with h | h
      · exact hdisj q h s (by simp [hs])
      · simp only [List.mem_singleton] at h
        subst h
        intro hEq
        have hEq2 : r.external_id = s.external_id := hEq
        exact (List.nodup_cons.mp hn').1
          (hEq2 ▸ List.mem_map_of_mem IntegrationExternalProject.external_id hs)

/-! ## Claim C2: the config roundtrip through persisted rows -/

/-- Claim C2: for every valid per-project mapping set `M` (truthy resolve and
unresolve targets, distinct project ids as in a posted dict), running
`update_organization_config` with `sync_status_forward = M` succeeds, and
`get_config_data` then reports a `sync_status_forward` entry equal to `M`
(same project ids, same values), rebuilt from the persisted
`IntegrationExternalProject` rows rather than from the stored blob (which
only holds `bool(M)`). -/
theorem update_config_get_config_roundtrip (st : OrgIntegrationState)
    (M : List (String × StatusMapping)) (rest : List (String × JVal))
    (hvalid : ∀ pm ∈ M, pm.2.on_resolve ≠ "" ∧ pm.2.on_unresolve ≠ "")
    (hkeys : (M.map Prod.fst).Nodup) :
    (update_organization_config st ⟨some M, rest⟩).1 = none ∧
    pyGet (get_config_data (update_organization_config st ⟨some M, rest⟩).2)
        "sync_status_forward" =
      some (JVal.obj (M.map (fun pm => (pm.1,
        JVal.obj [("on_unresolve", JVal.s pm.2.on_unresolve),
                  ("on_resolve", JVal.s pm.2.on_resolve)])))) := by
  have hany : (M.any fun pm => pm.2.on_unresolve == "" || pm.2.on_resolve == "") = false := by
    rw [List.any_eq_false]
    intro pm hm
    simp [(hvalid pm hm).1, (hvalid pm hm).2]
  constructor
  · simp [update_organization_config, hany]
  · have hkept : (st.externalProjects.filter
        (fun ep => ep.organization_integration_id != st.orgIntegrationId)).filter
        (fun ep => ep.organization_integration_id == st.orgIntegrationId) = [] := by
      rw [List.filter_filter]
      have : ∀ ep : IntegrationExternalProject,
          ((ep.organization_integration_id == st.orgIntegrationId) &&
           (ep.organization_integration_id != st.orgIntegrationId)) = false := by
        intro ep
        by_cases h : ep.organization_integration_id = st.orgIntegrationId <;> simp [h]
      simp only [this, List.filter_false]
    simp only [update_organization_config, hany, Bool.false_eq_true, if_false,
      get_config_data, List.filter_append, hkept, List.nil_append]
    have hcreated : (M.map (fun pm =>
        { organization_integration_id := st.orgIntegrationId
          external_id := pm.1
          resolved_status := pm.2.on_resolve
          unresolved_status := pm.2.on_unresolve : IntegrationExternalProject })).filter
        (fun ep => ep.organization_integration_id == st.orgIntegrationId)
        = M.map (fun pm =>
        { organization_integration_id := st.orgIntegrationId
          external_id := pm.1
          resolved_status := pm.2.on_resolve
          unresolved_status := pm.2.on_unresolve : IntegrationExternalProject }) := by
      rw [List.filter_eq_self]
      intro a ha
      obtain ⟨pm, _, hpm⟩ := List.mem_map.mp ha
      subst hpm
      simp
    rw [hcreated, foldl_rowStatusObj_fresh _ _ (by simp [List.map_map, Function.comp]; exact hkeys)
      (by intro q hq; simp at hq)]
    rw [List.nil_append, pyGet_pyDictSet_self]
    simp [List.map_map, Function.comp, rowStatusObj]

/-- Witness for C2 at a two-project mapping set over a state holding rows of
another organization integration and a stale row of this one. -/
theorem update_config_get_config_roundtrip_witness :
    (update_organization_config
        ⟨7, [("sync_comments", JVal.b true)], [⟨3, "keep", "a", "b"⟩, ⟨7, "stale", "x", "y"⟩]⟩
        ⟨some [("10100", ⟨"10002", "10001"⟩), ("10200", ⟨"3", "4"⟩)],
         [("sync_comments", JVal.b false)]⟩).1 = none ∧
    pyGet (get_config_data (update_organization_config
        ⟨7, [("sync_comments", JVal.b true)], [⟨3, "keep", "a", "b"⟩, ⟨7, "stale", "x", "y"⟩]⟩
        ⟨some [("10100", ⟨"10002", "10001"⟩), ("10200", ⟨"3", "4"⟩)],
         [("sync_comments", JVal.b false)]⟩).2) "sync_status_forward" =
      some (JVal.obj [("10100", JVal.obj [("on_unresolve", JVal.s "10001"),
                                          ("on_resolve", JVal.s "10002")]),
                      ("10200", JVal.obj [("on_unresolve", JVal.s "4"),
                                          ("on_resolve", JVal.s "3")])]) := by
  have h := update_config_get_config_roundtrip
    ⟨7, [("sync_comments", JVal.b true)], [⟨3, "keep", "a", "b"⟩, ⟨7, "stale", "x", "y"⟩]⟩
    [("10100", ⟨"10002", "10001"⟩), ("10200", ⟨"3", "4"⟩)]
    [("sync_comments", JVal.b false)]
    (by decide) (by decide)
  simpa using h

/-! ## Claim C4: outbound status sync without a configured mapping -/

/-- Claim C4: when no `IntegrationExternalProject` row matches the issue's
project for this organization integration, `sync_status_outbound` returns
right after fetching the issue: it emits no transition fetch and no
transition call. -/
theorem sync_status_outbound_no_mapping_noop (env : SyncStatusEnv) (is_resolved : Bool)
    (h : matchingExternalProjects env = []) :
    sync_status_outbound env is_resolved = .ok [Effect.getIssue env.externalIssueKey] ∧
    ∀ calls, sync_status_outbound env is_resolved = .ok calls →
      ∀ c ∈ calls, touchesTransitions c = false := by
  have hres : sync_status_outbound env is_resolved
      = .ok [Effect.getIssue env.externalIssueKey] := by
    simp only [sync_status_outbound, h]
  refine ⟨hres, ?_⟩
  intro calls hcalls c hc
  rw [hres] at hcalls
  cases hcalls
  simp only [List.mem_singleton] at hc
  subst hc
  rfl

/-- Witness for C4: a state whose only persisted row belongs to a different
Jira project; the trace is just the issue fetch. -/
theorem sync_status_outbound_no_mapping_noop_witness :
    sync_status_outbound
        ⟨"SEN-1", 1, 2, [⟨7, 1, 2⟩], [⟨7, "10500", "10002", "10001"⟩], "10400", "1", []⟩ true =
      .ok [Effect.getIssue "SEN-1"] :=
  (sync_status_outbound_no_mapping_noop
    ⟨"SEN-1", 1, 2, [⟨7, 1, 2⟩], [⟨7, "10500", "10002", "10001"⟩], "10400", "1", []⟩ true
    (by decide)).1

/-! ## Claim C5: assignee sync without a verified-email match -/

/-- When no search result matches the searched email exactly (failed
searches included), the search loop finds nobody and its trace holds only
search calls. -/
theorem searchJiraUser_no_match (key : String) (search : String → Option (List JiraUser)) :
    ∀ emails : List String,
    (∀ e ∈ emails, ∀ res, search e = some res → ∀ r ∈ res, r.emailAddress ≠ e) →
    (searchJiraUser key search emails).2 = none ∧
    ∀ c ∈ (searchJiraUser key search emails).1, ∃ em, c = Effect.searchUsers key em := by
  intro emails
  induction emails with
  | nil => intro _; simp [searchJiraUser]
  | cons e rest ih =>
    intro h
    have hrest := ih (fun e' he' => h e' (by simp [he']))
    rcases hsr : searchJiraUser key search rest with ⟨tr, fd⟩
    rw [hsr] at hrest
    cases hse : search e with
    | none =>
      simp only [searchJiraUser, hse, hsr]
      refine ⟨hrest.1, ?_⟩
      intro c hc
      rcases List.mem_cons.mp hc with hc | hc
      · exact ⟨e, hc⟩
      · exact hrest.2 c hc
    | some res =>
      have hfilter2 : res.filter (fun r => r.emailAddress == e) = [] := by
        rw [List.filter_eq_nil_iff]
        intro r hr
        simpa using h e (by simp) res hse r hr
      simp only [searchJiraUser, hse, hfilter2, List.head?_nil, hsr]
      refine ⟨hrest.1, ?_⟩
      intro c hc
      rcases List.mem_cons.mp hc with hc | hc
      · exact ⟨e, hc⟩
      · exact hrest.2 c hc

/-- Claim C5: when `assign = true` and no Jira user search result's email
exactly matches a verified address (including when every search fails),
`sync_assignee_outbound` logs `jira.assignee-not-found` and returns without
calling the assign operation, so the existing Jira assignee is never
cleared. -/
theorem sync_assignee_outbound_no_match_no_assign (env : AssigneeEnv)
    (h : noMatchFound env = true) :
    Effect.logInfo "jira.assignee-not-found" ∈ sync_assignee_outbound env true ∧
    ∀ k n, Effect.assignIssue k n ∉ sync_assignee_outbound env true := by
  have hprop : ∀ e ∈ env.emails, ∀ res, env.search e = some res →
      ∀ r ∈ res, r.emailAddress ≠ e := by
    intro e he res hres r hr
    have hf := List.all_eq_true.mp (by simpa [noMatchFound] using h) e he
    rw [hres] at hf
    have := List.all_eq_true.mp hf r hr
    simpa using this
  rcases hs : searchJiraUser env.issueKey env.search env.emails with ⟨tr, fd⟩
  have hl := searchJiraUser_no_match env.issueKey env.search env.emails hprop
  rw [hs] at hl
  have hsync : sync_assignee_outbound env true = tr ++ [Effect.logInfo "jira.assignee-not-found"] := by
    simp only [sync_assignee_outbound, if_true, hs, hl.1, Option.isNone_none, Bool.and_true]
  rw [hsync]
  constructor
  · simp
  · intro k n hmem
    rcases List.mem_append.mp hmem with hmem | hmem
    · obtain ⟨em, hem⟩ := hl.2 _ hmem
      exact Effect.noConfusion hem
    · simp at hmem

/-- Witness for C5: the first search fails with an API error, the second
returns a user with a different email; the assignee-not-found log is emitted
and no assign call appears. -/
theorem sync_assignee_outbound_no_match_no_assign_witness :
    Effect.logInfo "jira.assignee-not-found" ∈
      sync_assignee_outbound
        ⟨"SEN-1", ["a@example.com", "b@example.com"],
         (fun e => if e == "a@example.com" then none
                   else some [⟨"bob", "bob@example.com"⟩]), false⟩ true ∧
    ∀ k n, Effect.assignIssue k n ∉
      sync_assignee_outbound
        ⟨"SEN-1", ["a@example.com", "b@example.com"],
         (fun e => if e == "a@example.com" then none
                   else some [⟨"bob", "bob@example.com"⟩]), false⟩ true :=
  sync_assignee_outbound_no_match_no_assign _ (by decide)

/-! ## Claim C6: timetracking fields and the translator -/

/-- Counterexample to C6 as stated: a `timetracking` record whose custom
field identifier is the built-in select type hits the select branch, which
precedes the timetracking check, and yields a select descriptor instead of
the omit signal. -/
theorem build_dynamic_field_timetracking_cex :
    build_dynamic_field "u"
        ⟨"Time Tracking", false,
         ⟨"timetracking", JIRA_CUSTOM_FIELD_TYPES "select", none⟩, none, none⟩ =
      .ok (some ⟨"Time Tracking", false, "select", some [], none, none, none⟩) ∧
    build_dynamic_field "u"
        ⟨"Time Tracking", false,
         ⟨"timetracking", JIRA_CUSTOM_FIELD_TYPES "select", none⟩, none, none⟩ ≠
      .ok none := by
  have heq : build_dynamic_field "u"
      ⟨"Time Tracking", false,
       ⟨"timetracking", JIRA_CUSTOM_FIELD_TYPES "select", none⟩, none, none⟩ =
      .ok (some ⟨"Time Tracking", false, "select", some [], none, none, none⟩) := rfl
  exact ⟨heq, by rw [heq]; simp⟩

/-- Claim C6 as amended: a `timetracking` record produces the omit signal
provided its custom field identifier is not the built-in select type and it
does not carry both a truthy autocomplete URL and a `user` item type (the
two earlier branches of the rule chain). -/
theorem build_dynamic_field_timetracking_omitted (sentry_url : String) (fm : FieldMeta)
    (htype : fm.schema.type = "timetracking")
    (hcustom : fm.schema.custom ≠ JIRA_CUSTOM_FIELD_TYPES "select")
    (hauto : ¬(optStrTruthy fm.autoCompleteUrl = true ∧ fm.schema.items = some "user")) :
    build_dynamic_field sentry_url fm = .ok none := by
  simp [build_dynamic_field, htype, hcustom, hauto]

/-- Witness for the amended C6 at a plain timetracking record. -/
theorem build_dynamic_field_timetracking_omitted_witness :
    build_dynamic_field "url"
        ⟨"Time Tracking", true, ⟨"timetracking", none, none⟩, none, none⟩ = .ok none :=
  build_dynamic_field_timetracking_omitted "url"
    ⟨"Time Tracking", true, ⟨"timetracking", none, none⟩, none, none⟩
    rfl (by decide) (by decide)

/-! ## Claim C7: reverse cleaning of array fields -/

/-- Counterexample to C7 as stated: an array field whose (non-string) item
type is `user` hits the user branch, which precedes the array branch, and
the whole posted sequence is wrapped as one `{name: v}` dict instead of the
per-element `{id: element}` wrapping. -/
theorem clean_array_field_cex :
    cleanFieldValue ⟨"array", none, some "user"⟩ (.arr [.s "u1"]) =
      .ok (.obj [("name", .arr [.s "u1"])]) ∧
    cleanFieldValue ⟨"array", none, some "user"⟩ (.arr [.s "u1"]) ≠
      .ok (.arr [.obj [("id", .s "u1")]]) := by
  have heq : cleanFieldValue ⟨"array", none, some "user"⟩ (.arr [.s "u1"]) =
      .ok (.obj [("name", .arr [.s "u1"])]) := rfl
  exact ⟨heq, by rw [heq]; simp⟩

/-- Claim C7 as amended: for an array field whose item type is neither
`string` nor `user` and whose custom identifier is not the multi-user
picker, a non-empty posted sequence is wrapped per element as
`{id: element}`; for an array field with `string` items (custom identifier
again not the multi-user picker), a truthy posted scalar becomes the
one-element sequence `[v]`. -/
theorem clean_array_field_values (schema : Schema) (l : List JVal) (v : JVal)
    (htype : schema.type = "array")
    (hmup : schema.custom ≠ JIRA_CUSTOM_FIELD_TYPES "multiuserpicker") :
    (schema.items ≠ some "string" → schema.items ≠ some "user" → l ≠ [] →
      cleanFieldValue schema (.arr l) =
        .ok (.arr (l.map (fun vx => .obj [("id", vx)])))) ∧
    (schema.items = some "string" → jvTruthy v = true →
      cleanFieldValue schema v = .ok (.arr [v])) := by
  constructor
  · intro hs hu _
    simp [cleanFieldValue, htype, hmup, hs, hu]
  · intro hs _
    simp [cleanFieldValue, htype, hmup, hs]

/-- Witness for the amended C7: a version-items array is wrapped per element
and a string-items array wraps the scalar. -/
theorem clean_array_field_values_witness :
    cleanFieldValue ⟨"array", none, some "version"⟩ (.arr [.s "1", .s "2"]) =
      .ok (.arr [.obj [("id", .s "1")], .obj [("id", .s "2")]]) ∧
    cleanFieldValue ⟨"array", none, some "string"⟩ (.s "label") =
      .ok (.arr [.s "label"]) :=
  ⟨(clean_array_field_values ⟨"array", none, some "version"⟩ [.s "1", .s "2"] (.s "x")
      rfl (by decide)).1 (by decide) (by decide) (by simp),
   (clean_array_field_values ⟨"array", none, some "string"⟩ [] (.s "label")
      rfl (by decide)).2 rfl (by decide)⟩

/-! ## Claim C8: reverse cleaning of numeric fields -/

/-- Counterexample to C8 as stated: a `number` field carrying a `user` item
type hits the user branch, which precedes the numeric branch, so the posted
string is wrapped as `{name: v}` rather than parsed to a float. -/
theorem clean_number_field_cex :
    cleanFieldValue ⟨"number", none, some "user"⟩ (.s "3.5") =
      .ok (.obj [("name", .s "3.5")]) ∧
    cleanFieldValue ⟨"number", none, some "user"⟩ (.s "3.5") ≠
      .ok (.f (7 / 2 : Rat)) := by
  have heq : cleanFieldValue ⟨"number", none, some "user"⟩ (.s "3.5") =
      .ok (.obj [("name", .s "3.5")]) := rfl
  exact ⟨heq, by rw [heq]; simp⟩

/-- Claim C8 as amended: a field of schema type `number` (or with the
tempo-account custom identifier) whose truthy posted value is a string is
parsed by the numeric branch — float when the string contains a dot,
integer otherwise, the original string kept without an error when parsing
fails — provided none of the earlier branches of the chain applies (no
`user` type or items, no multi-user-picker or textarea custom identifier,
not an array). -/
theorem clean_number_field_parse (schema : Schema) (str : String)
    (hnum : schema.type = "number" ∨ schema.custom = JIRA_CUSTOM_FIELD_TYPES "tempo_account")
    (huser : schema.type ≠ "user") (hitems : schema.items ≠ some "user")
    (hmup : schema.custom ≠ JIRA_CUSTOM_FIELD_TYPES "multiuserpicker")
    (harr : schema.type ≠ "array")
    (hta : schema.custom ≠ JIRA_CUSTOM_FIELD_TYPES "textarea")
    (_hne : str ≠ "") :
    cleanFieldValue schema (.s str) =
      (if str.toList.contains '.' then
         match pyFloat? str with
         | some q => .ok (JVal.f q)
         | none => .ok (JVal.s str)
       else
         match pyInt? str with
         | some n => .ok (JVal.i n)
         | none => .ok (JVal.s str)) := by
  have hmup2 : schema.custom ≠
      some "com.atlassian.jira.plugin.system.customfieldtypes:multiuserpicker" := by
    simpa [JIRA_CUSTOM_FIELD_TYPES] using hmup
  have hta2 : schema.custom ≠
      some "com.atlassian.jira.plugin.system.customfieldtypes:textarea" := by
    simpa [JIRA_CUSTOM_FIELD_TYPES] using hta
  rcases hnum with hnum | hnum
  · simp [cleanFieldValue, hnum, huser, hitems, hmup2, harr, hta2,
      JIRA_CUSTOM_FIELD_TYPES, optStrTruthy]
  · simp [cleanFieldValue, hnum, huser, hitems, hmup2, harr, hta2,
      JIRA_CUSTOM_FIELD_TYPES, optStrTruthy]

/-- Witness for the amended C8 at the spec's examples: `3.5` parses to the
float seven halves, `3` to the integer three, `abc` stays a string. -/
theorem clean_number_field_parse_witness :
    cleanFieldValue ⟨"number", none, none⟩ (.s "3.5") = .ok (.f (7 / 2 : Rat)) ∧
    cleanFieldValue ⟨"number", none, none⟩ (.s "3") = .ok (.i 3) ∧
    cleanFieldValue ⟨"number", none, none⟩ (.s "abc") = .ok (.s "abc") := by
  refine ⟨?_, ?_, ?_⟩
  · rw [clean_number_field_parse ⟨"number", none, none⟩ "3.5" (Or.inl rfl) (by decide)
      (by decide) (by decide) (by decide) (by decide) (by decide)]
    show Except.ok (JVal.f (((3 : Nat) : Rat) + ((5 : Nat) : Rat) / (10 : Rat) ^ (1 : Nat))) =
      Except.ok (JVal.f (7 / 2 : Rat))
    norm_num
  · rw [clean_number_field_parse ⟨"number", none, none⟩ "3" (Or.inl rfl) (by decide)
      (by decide) (by decide) (by decide) (by decide) (by decide)]
    rfl
  · rw [clean_number_field_parse ⟨"number", none, none⟩ "abc" (Or.inl rfl) (by decide)
      (by decide) (by decide) (by decide) (by decide) (by decide)]
    rfl

/-! ## Claim C9: issue type resolution -/

/-- Claim C9: over a non-empty issue-type list, `get_issue_type_meta`
returns an issue type carrying the requested id when a non-empty requested
id occurs in the list; otherwise (requested id absent from the list, empty,
or not supplied) it returns the first issue type; and for every request the
result is a member of the list. -/
theorem get_issue_type_meta_spec (meta : CreateMeta) (it : String)
    (hne : meta.issuetypes ≠ []) :
    (it ≠ "" → (∃ t ∈ meta.issuetypes, t.id = it) →
      ∃ t, get_issue_type_meta (some (JVal.s it)) meta = some t ∧
        t ∈ meta.issuetypes ∧ t.id = it) ∧
    ((∀ t ∈ meta.issuetypes, t.id ≠ it) →
      get_issue_type_meta (some (JVal.s it)) meta = meta.issuetypes.head?) ∧
    (get_issue_type_meta none meta = meta.issuetypes.head?) ∧
    (get_issue_type_meta (some (JVal.s "")) meta = meta.issuetypes.head?) ∧
    (∀ v : Option JVal, ∃ t, get_issue_type_meta v meta = some t ∧ t ∈ meta.issuetypes) := by
  obtain ⟨a0, as0, hl0⟩ := List.exists_cons_of_ne_nil hne
  have hhead : meta.issuetypes.head? = some a0 := by rw [hl0]; rfl
  have hheadmem : a0 ∈ meta.issuetypes := by rw [hl0]; simp
  refine ⟨?_, ?_, ?_, ?_, ?_⟩
  · intro hit hex
    obtain ⟨t0, hmem, hid⟩ := hex
    cases hfl : meta.issuetypes.filter (fun t => t.id == it) with
    | nil =>
      exfalso
      rw [List.filter_eq_nil_iff] at hfl
      exact hfl t0 hmem (by simp [hid])
    | cons a as =>
      have hafil : a ∈ meta.issuetypes.filter (fun t => t.id == it) := by rw [hfl]; simp
      have ha := List.mem_filter.mp hafil
      refine ⟨a, ?_, ha.1, by simpa using ha.2⟩
      simp [get_issue_type_meta, jvTruthy, hit, hfl]
  · intro hnone
    have hfl : meta.issuetypes.filter (fun t => t.id == it) = [] := by
      rw [List.filter_eq_nil_iff]
      intro t ht
      simpa using hnone t ht
    simp [get_issue_type_meta, jvTruthy, hfl]
  · simp [get_issue_type_meta]
  · simp [get_issue_type_meta, jvTruthy]
  · intro v
    cases v with
    | none => exact ⟨a0, by simp [get_issue_type_meta, hhead], hheadmem⟩
    | some w =>
      by_cases htr : jvTruthy w = true
      · cases hfl : meta.issuetypes.filter (fun t =>
            match w with | JVal.s sv => t.id == sv | _ => false) with
        | nil => exact ⟨a0, by simp [get_issue_type_meta, htr, hfl, hhead], hheadmem⟩
        | cons a as =>
          have hafil : a ∈ meta.issuetypes.filter (fun t =>
              match w with | JVal.s sv => t.id == sv | _ => false) := by rw [hfl]; simp
          exact ⟨a, by simp [get_issue_type_meta, htr, hfl],
            (List.mem_filter.mp hafil).1⟩
      · exact ⟨a0, by simp [get_issue_type_meta, htr, hhead], hheadmem⟩

/-- Witness for C9 over a two-type project: a present id is honoured, an
absent id and a missing request fall back to the first issue type. -/
theorem get_issue_type_meta_spec_witness :
    get_issue_type_meta (some (JVal.s "10002")) ⟨[⟨"10001", []⟩, ⟨"10002", []⟩]⟩ =
      some ⟨"10002", []⟩ ∧
    get_issue_type_meta (some (JVal.s "10404")) ⟨[⟨"10001", []⟩, ⟨"10002", []⟩]⟩ =
      some ⟨"10001", []⟩ ∧
    get_issue_type_meta none ⟨[⟨"10001", []⟩, ⟨"10002", []⟩]⟩ = some ⟨"10001", []⟩ := by
  obtain ⟨h1, -, h3, -, -⟩ :=
    get_issue_type_meta_spec ⟨[⟨"10001", []⟩, ⟨"10002", []⟩]⟩ "10002" (by decide)
  obtain ⟨-, h2b, -, -, -⟩ :=
    get_issue_type_meta_spec ⟨[⟨"10001", []⟩, ⟨"10002", []⟩]⟩ "10404" (by decide)
  refine ⟨?_, ?_, ?_⟩
  · obtain ⟨t, heq, hmem, hid⟩ := h1 (by decide) ⟨⟨"10002", []⟩, by simp, rfl⟩
    have ht : t = ⟨"10001", []⟩ ∨ t = ⟨"10002", []⟩ := by simpa using hmem
    rcases ht with rfl | rfl
    · exact absurd hid (by decide)
    · exact heq
  · rw [h2b (by decide)]
    rfl
  · rw [h3]
    rfl

/-! ## Claim C10: unconditional description and title copying -/

/-- One loop step writes only the key equal to its field name. -/
theorem processField_preserves (data cd : PyDict) (field : String) (f : Option Schema)
    (cd2 : PyDict) (k : String) (hk : k ≠ field)
    (h : processField data cd field f = .ok cd2) :
    pyGet cd2 k = pyGet cd k := by
  by_cases h1 : field = "description"
  · subst h1
    cases hd : pyGet data "description" with
    | none => simp [processField, hd] at h
    | some v =>
      simp [processField, hd] at h
      subst h
      exact pyGet_pyDictSet_ne _ _ _ _ hk
  · by_cases h2 : field = "summary"
    · subst h2
      cases hd : pyGet data "title" with
      | none => simp [processField, hd] at h
      | some v =>
        simp [processField, hd] at h
        subst h
        exact pyGet_pyDictSet_ne _ _ _ _ hk
    · cases hd : pyGet data field with
      | none =>
        simp [processField, h1, h2, hd] at h
        subst h
        rfl
      | some v =>
        cases htr : jvTruthy v with
        | false =>
          simp [processField, h1, h2, hd, htr] at h
          subst h
          rfl
        | true =>
          cases f with
          | none =>
            simp [processField, h1, h2, hd, htr] at h
            subst h
            exact pyGet_pyDictSet_ne _ _ _ _ hk
          | some schema =>
            cases hcv : cleanFieldValue schema v with
            | error e => simp [processField, h1, h2, hd, htr, hcv] at h
            | ok v2 =>
              simp [processField, h1, h2, hd, htr, hcv] at h
              subst h
              exact pyGet_pyDictSet_ne _ _ _ _ hk

/-- The field loop leaves keys outside the metadata field set untouched. -/
theorem buildCleanedData_preserves (data : PyDict) (fs : List (String × Option Schema)) :
    ∀ (acc cd : PyDict) (k : String), k ∉ fs.map Prod.fst →
    buildCleanedData data fs acc = .ok cd → pyGet cd k = pyGet acc k := by
  induction fs with
  | nil =>
    intro acc cd k _ h
    simp only [buildCleanedData] at h
    cases h
    rfl
  | cons p rest ih =>
    obtain ⟨field, f⟩ := p
    intro acc cd k hk h
    simp only [List.map_cons, List.mem_cons, not_or] at hk
    simp only [buildCleanedData] at h
    cases hp : processField data acc field f with
    | error e => rw [hp] at h; cases h
    | ok cd1 =>
      rw [hp] at h
      rw [ih cd1 cd k hk.2 h, processField_preserves data acc field f cd1 k hk.1 hp]

/-- When the metadata fields contain `description` and the posted data holds
a value for it, a successful loop run ends with that exact value under the
`description` key — truthiness of the value never being consulted. -/
theorem buildCleanedData_description_sets (data : PyDict) (fs : List (String × Option Schema)) :
    ∀ (acc cd : PyDict) (v : JVal), pyGet data "description" = some v →
    "description" ∈ fs.map Prod.fst →
    buildCleanedData data fs acc = .ok cd →
    pyGet cd "description" = some v := by
  induction fs with
  | nil => intro acc cd v _ hmem _; simp at hmem
  | cons p rest ih =>
    obtain ⟨field, f⟩ := p
    intro acc cd v hv hmem h
    simp only [buildCleanedData] at h
    by_cases hf : field = "description"
    · subst hf
      have hpf : processField data acc "description" f =
          .ok (pyDictSet acc "description" v) := by
        simp [processField, hv]
      rw [hpf] at h
      by_cases hrest : "description" ∈ rest.map Prod.fst
      · exact ih _ _ _ hv hrest h
      · rw [buildCleanedData_preserves data rest _ _ _ hrest h, pyGet_pyDictSet_self]
    · have hrest : "description" ∈ rest.map Prod.fst := by
        simp only [List.map_cons, List.mem_cons] at hmem
        rcases hmem with hmem | hmem
        · exact absurd hmem.symm hf
        · exact hmem
      cases hp : processField data acc field f with
      | error e => rw [hp] at h; cases h
      | ok cd1 => rw [hp] at h; exact ih _ _ _ hv hrest h

/-- When the metadata fields contain `summary` and the posted data holds a
`title` value, a successful loop run ends with that exact value under the
`summary` key. -/
theorem buildCleanedData_summary_sets (data : PyDict) (fs : List (String × Option Schema)) :
    ∀ (acc cd : PyDict) (v : JVal), pyGet data "title" = some v →
    "summary" ∈ fs.map Prod.fst →
    buildCleanedData data fs acc = .ok cd →
    pyGet cd "summary" = some v := by
  induction fs with
  | nil => intro acc cd v _ hmem _; simp at hmem
  | cons p rest ih =>
    obtain ⟨field, f⟩ := p
    intro acc cd v hv hmem h
    simp only [buildCleanedData] at h
    by_cases hf : field = "summary"
    · subst hf
      have hpf : processField data acc "summary" f =
          .ok (pyDictSet acc "summary" v) := by
        simp [processField, hv]
      rw [hpf] at h
      by_cases hrest : "summary" ∈ rest.map Prod.fst
      · exact ih _ _ _ hv hrest h
      · rw [buildCleanedData_preserves data rest _ _ _ hrest h, pyGet_pyDictSet_self]
    · have hrest : "summary" ∈ rest.map Prod.fst := by
        simp only [List.map_cons, List.mem_cons] at hmem
        rcases hmem with hmem | hmem
        · exact absurd hmem.symm hf
        · exact hmem
      cases hp : processField data acc field f with
      | error e => rw [hp] at h; cases h
      | ok cd1 => rw [hp] at h; exact ih _ _ _ hv hrest h

/-- When `description` is among the metadata fields, the posted data lacks
the `description` key, and every other field is skipped (absent from the
data and not `summary`), the loop raises `KeyError description`. -/
theorem buildCleanedData_missing_description (data : PyDict)
    (fs : List (String × Option Schema)) :
    ∀ acc : PyDict, pyGet data "description" = none →
    "description" ∈ fs.map Prod.fst →
    (∀ p ∈ fs, p.1 = "description" ∨ (p.1 ≠ "summary" ∧ pyGet data p.1 = none)) →
    buildCleanedData data fs acc = .error (.keyError "description") := by
  induction fs with
  | nil => intro acc _ hmem _; simp at hmem
  | cons p rest ih =>
    obtain ⟨field, f⟩ := p
    intro acc hd hmem hall
    by_cases hf : field = "description"
    · subst hf
      simp only [buildCleanedData]
      have hpf : processField data acc "description" f =
          .error (.keyError "description") := by
        simp [processField, hd]
      rw [hpf]
    · rcases hall (field, f) (by simp) with h1 | ⟨hsum, hnone⟩
      · exact absurd h1 hf
      · simp only [buildCleanedData]
        have hpf : processField data acc field f = .ok acc := by
          simp [processField, hf, hsum, hnone]
        rw [hpf]
        have hrest : "description" ∈ rest.map Prod.fst := by
          simp only [List.map_cons, List.mem_cons] at hmem
          rcases hmem with hmem | hmem
          · exact absurd hmem.symm hf
          · exact hmem
        exact ih _ hd hrest (fun q hq => hall q (by simp [hq]))

/-- When `summary` is among the metadata fields, the posted data lacks the
`title` key, and every other field is skipped, the loop raises
`KeyError title`. -/
theorem buildCleanedData_missing_title (data : PyDict)
    (fs : List (String × Option Schema)) :
    ∀ acc : PyDict, pyGet data "title" = none →
    "summary" ∈ fs.map Prod.fst →
    (∀ p ∈ fs, p.1 = "summary" ∨ (p.1 ≠ "description" ∧ pyGet data p.1 = none)) →
    buildCleanedData data fs acc = .error (.keyError "title") := by
  induction fs with
  | nil => intro acc _ hmem _; simp at hmem
  | cons p rest ih =>
    obtain ⟨field, f⟩ := p
    intro acc hd hmem hall
    by_cases hf : field = "summary"
    · subst hf
      simp only [buildCleanedData]
      have hpf : processField data acc "summary" f = .error (.keyError "title") := by
        simp [processField, hd]
      rw [hpf]
    · rcases hall (field, f) (by simp) with h1 | ⟨hdesc, hnone⟩
      · exact absurd h1 hf
      · simp only [buildCleanedData]
        have hpf : processField data acc field f = .ok acc := by
          simp [processField, hf, hdesc, hnone]
        rw [hpf]
        have hrest : "summary" ∈ rest.map Prod.fst := by
          simp only [List.map_cons, List.mem_cons] at hmem
          rcases hmem with hmem | hmem
          · exact absurd hmem.symm hf
          · exact hmem
        exact ih _ hd hrest (fun q hq => hall q (by simp [hq]))

/-- Claim C10: when the resolved issue type's field set contains
`description` (respectively `summary`), `create_issue` copies
`data.description` (respectively `data.title`) into the payload
unconditionally, even when the value is falsy (an empty string), and when
the posted data lacks that key the operation fails with the uncaught
`KeyError` — not with a configuration error. -/
theorem create_issue_description_title_unconditional :
    (∀ (data : PyDict) (m : CreateMeta) (itm : IssueTypeMeta) (payload : PyDict),
      pyGet data "description" = some (JVal.s "") →
      pyGet data "title" = some (JVal.s "") →
      get_issue_type_meta (pyGet data "issuetype") m = some itm →
      "description" ∈ itm.fields.map Prod.fst →
      "summary" ∈ itm.fields.map Prod.fst →
      create_issue data (some m) = .ok payload →
      pyGet payload "description" = some (JVal.s "") ∧
        pyGet payload "summary" = some (JVal.s "")) ∧
    (∀ (data : PyDict) (m : CreateMeta) (itm : IssueTypeMeta),
      optJvTruthy (pyGet data "issuetype") = true →
      optJvTruthy (pyGet data "project") = true →
      get_issue_type_meta (pyGet data "issuetype") m = some itm →
      pyGet data "description" = none →
      "description" ∈ itm.fields.map Prod.fst →
      (∀ p ∈ itm.fields, p.1 = "description" ∨ (p.1 ≠ "summary" ∧ pyGet data p.1 = none)) →
      create_issue data (some m) = .error (.keyError "description")) ∧
    (∀ (data : PyDict) (m : CreateMeta) (itm : IssueTypeMeta),
      optJvTruthy (pyGet data "issuetype") = true →
      optJvTruthy (pyGet data "project") = true →
      get_issue_type_meta (pyGet data "issuetype") m = some itm →
      pyGet data "title" = none →
      "summary" ∈ itm.fields.map Prod.fst →
      (∀ p ∈ itm.fields, p.1 = "summary" ∨ (p.1 ≠ "description" ∧ pyGet data p.1 = none)) →
      create_issue data (some m) = .error (.keyError "title")) := by
  refine ⟨?_, ?_, ?_⟩
  · intro data m itm payload hdesc htitle hitm hmd hms hok
    by_cases h1 : optJvTruthy (pyGet data "issuetype") = true
    case neg => simp [create_issue, h1] at hok
    by_cases h2 : optJvTruthy (pyGet data "project") = true
    case neg => simp [create_issue, h1, h2] at hok
    simp only [create_issue, h1, h2, Bool.not_true, Bool.false_eq_true, if_false, hitm] at hok
    cases hb : buildCleanedData data itm.fields [] with
    | error e => rw [hb] at hok; cases hok
    | ok cd =>
      rw [hb] at hok
      have hok2 : (match pyGet cd "issuetype" with
          | none => Except.error (PyErr.keyError "issuetype")
          | some v =>
            if isIdObj v = true then Except.ok cd
            else Except.ok (pyDictSet cd "issuetype" (JVal.obj [("id", v)]))) =
          Except.ok payload := hok
      have hcd_d : pyGet cd "description" = some (JVal.s "") :=
        buildCleanedData_description_sets data itm.fields [] cd _ hdesc hmd hb
      have hcd_s : pyGet cd "summary" = some (JVal.s "") :=
        buildCleanedData_summary_sets data itm.fields [] cd _ htitle hms hb
      cases hit : pyGet cd "issuetype" with
      | none => rw [hit] at hok2; cases hok2
      | some v =>
        rw [hit] at hok2
        have hok3 : (if isIdObj v = true then Except.ok cd
            else Except.ok (pyDictSet cd "issuetype" (JVal.obj [("id", v)]))) =
            Except.ok payload := hok2
        cases hio : isIdObj v with
        | true =>
          rw [hio, if_pos rfl] at hok3
          cases hok3
          exact ⟨hcd_d, hcd_s⟩
        | false =>
          rw [hio] at hok3
          simp only [Bool.false_eq_true, if_false] at hok3
          cases hok3
          refine ⟨?_, ?_⟩
          · rw [pyGet_pyDictSet_ne _ _ _ _ (by decide)]
            exact hcd_d
          · rw [pyGet_pyDictSet_ne _ _ _ _ (by decide)]
            exact hcd_s
  · intro data m itm h1 h2 hitm hd hmem hall
    simp only [create_issue, h1, h2, Bool.not_true, Bool.false_eq_true, if_false, hitm]
    rw [buildCleanedData_missing_description data itm.fields [] hd hmem hall]
  · intro data m itm h1 h2 hitm hd hmem hall
    simp only [create_issue, h1, h2, Bool.not_true, Bool.false_eq_true, if_false, hitm]
    rw [buildCleanedData_missing_title data itm.fields [] hd hmem hall]

/-- Witness for C10: an empty posted description and title are copied into
the payload verbatim; posted data missing the description (respectively
title) key makes `create_issue` raise the uncaught KeyError. -/
theorem create_issue_description_title_unconditional_witness :
    (pyGet [("description", JVal.s ""), ("summary", JVal.s ""),
            ("issuetype", JVal.obj [("id", JVal.s "1")])] "description" = some (JVal.s "") ∧
     pyGet [("description", JVal.s ""), ("summary", JVal.s ""),
            ("issuetype", JVal.obj [("id", JVal.s "1")])] "summary" = some (JVal.s "")) ∧
    create_issue [("issuetype", JVal.s "1"), ("project", JVal.s "p")]
        (some ⟨[⟨"1", [("description", none)]⟩]⟩) = .error (.keyError "description") ∧
    create_issue [("issuetype", JVal.s "1"), ("project", JVal.s "p")]
        (some ⟨[⟨"1", [("summary", none)]⟩]⟩) = .error (.keyError "title") := by
  refine ⟨?_, ?_, ?_⟩
  · exact create_issue_description_title_unconditional.1
      [("issuetype", JVal.s "1"), ("project", JVal.s "p"),
       ("description", JVal.s ""), ("title", JVal.s "")]
      ⟨[⟨"1", [("description", none), ("summary", none), ("issuetype", none)]⟩]⟩
      ⟨"1", [("description", none), ("summary", none), ("issuetype", none)]⟩
      [("description", JVal.s ""), ("summary", JVal.s ""),
       ("issuetype", JVal.obj [("id", JVal.s "1")])]
      rfl rfl rfl (by simp) (by simp) rfl
  · exact create_issue_description_title_unconditional.2.1
      [("issuetype", JVal.s "1"), ("project", JVal.s "p")]
      ⟨[⟨"1", [("description", none)]⟩]⟩ ⟨"1", [("description", none)]⟩
      rfl rfl rfl rfl (by simp)
      (by intro p hp; rw [List.mem_singleton] at hp; subst hp; left; rfl)
  · exact create_issue_description_title_unconditional.2.2
      [("issuetype", JVal.s "1"), ("project", JVal.s "p")]
      ⟨[⟨"1", [("summary", none)]⟩]⟩ ⟨"1", [("summary", none)]⟩
      rfl rfl rfl rfl (by simp)
      (by intro p hp; rw [List.mem_singleton] at hp; subst hp; left; rfl)
